import Mathlib

/-!
# Verification of the SHIFT-RAG retrieval / caching / filtering pipeline

Shallow embedding of the core services of the repository
(`app/services/QAService.py`, `Retriever.py`, `MetricEvaluator.py`,
`Reader.py`) and proofs of the behavioural claims about them.

Modelling conventions:
* Python floats are modelled by real numbers (`ℝ`).
* Python exceptions are modelled by `Except PyErr`; a function that can
  raise returns `Except.error e` for the exception `e` it raises.
* The injected collaborators (embedding capability, generation capability,
  the FAISS nearest-neighbour backend) are parameters of the embedded
  functions; their interface behaviour follows the spec (§4.2, §6), which
  treats them as opaque.
* Mutable attributes (`Retriever.vectorstore`, `Retriever.retriever`,
  `search_kwargs`) are modelled by explicit state passing.
-/

set_option autoImplicit false

/-- Python exceptions that the modelled code can raise:
`AttributeError` (attribute access on `None` / a missing method) and
`ValueError` (`CountVectorizer` empty vocabulary, `strptime` failure). -/
inductive PyErr where
  | attributeError
  | valueError
  deriving DecidableEq, Repr

/-- A `datetime.datetime` produced by `strptime('%d-%m-%Y')`: the time
components are always zero, so only the date part is kept. -/
structure PyDate where
  year : Nat
  month : Nat
  day : Nat
  deriving DecidableEq, Repr

/-- A value stored in a document's metadata dict: the code stores strings
(`answer`, `link`), `datetime` values (`date`) and Python `None`
(an unparseable `date`). -/
inductive MetaVal where
  | str (s : String)
  | date (d : PyDate)
  | null
  deriving DecidableEq, Repr

/-- `langchain.docstore.document.Document`: a `page_content` string plus a
metadata dict, modelled as an association list. -/
structure Document where
  page_content : String
  metadata : List (String × MetaVal)
  deriving DecidableEq, Repr

/-! ## Python string primitives used by the services -/

/-- The whitespace characters of Python's `\s` / `str.strip()` (ASCII part;
the inputs in scope contain no exotic Unicode spaces). -/
def isPySpace (c : Char) : Bool :=
  c = ' ' || c = '\t' || c = '\n' || c = '\r' || c = '\x0b' || c = '\x0c'

/-- Python `str.lower()` on the character ranges occurring in this code:
ASCII `A`–`Z` and Cyrillic `А`–`Я` / `Ё`. -/
def pyLowerChar (c : Char) : Char :=
  if 'A' ≤ c && c ≤ 'Z' then Char.ofNat (c.toNat + 32)
  else if 'А' ≤ c && c ≤ 'Я' then Char.ofNat (c.toNat + 32)
  else if c = 'Ё' then 'ё'
  else c

/-- Python `str.lower()`. -/
def pyLower (s : String) : String :=
  String.mk (s.data.map pyLowerChar)

/-- Python `str.startswith(pre)`: is `pre` a prefix of `s`? -/
def pyStartsWith (s pre : String) : Bool :=
  pre.data.isPrefixOf s.data

/-- Python `str.strip()` (no argument): remove leading and trailing
whitespace. -/
def pyStrip (s : String) : String :=
  String.mk (((s.data.dropWhile isPySpace).reverse.dropWhile isPySpace).reverse)

/-- Python `str.strip(chars)`: remove every leading and trailing character
that belongs to the character SET of `chars` (a character-set strip, not a
substring strip). -/
def pyStripChars (chars : String) (s : String) : String :=
  let inSet : Char → Bool := fun c => chars.data.contains c
  String.mk (((s.data.dropWhile inSet).reverse.dropWhile inSet).reverse)

/-- Replace every (leftmost, non-overlapping) occurrence of `pat` by `rep`,
as Python `str.replace` does.  The fuel argument (the length of the input)
only makes the recursion structural; it never runs out for the non-empty
patterns this code replaces. -/
def pyReplaceAux (pat rep : List Char) : Nat → List Char → List Char
  | _, [] => []
  | 0, s => s
  | fuel + 1, c :: rest =>
    if pat.isPrefixOf (c :: rest) then
      rep ++ pyReplaceAux pat rep fuel ((c :: rest).drop pat.length)
    else c :: pyReplaceAux pat rep fuel rest

/-- Python `str.replace(pat, rep)` (all occurrences). -/
def pyReplace (s pat rep : String) : String :=
  String.mk (pyReplaceAux pat.data rep.data s.data.length s.data)

/-! ## MetricEvaluator (`app/services/MetricEvaluator.py`)

`lexical_cosine_similarity` uses
`CountVectorizer().fit_transform([str1, str2])` followed by
`sklearn.metrics.pairwise.cosine_similarity`.  The sklearn behaviour is
modelled faithfully: the default analyzer lowercases the text and extracts
the tokens matched by `\b\w\w+\b` (maximal word-character runs of length at
least two); the vocabulary is the sorted set of tokens of both strings;
`cosine_similarity` L2-normalises each row, substituting norm 1 for a zero
norm (so a zero vector stays zero and its cosine is 0); an empty vocabulary
raises `ValueError`. -/

/-- A word character of Python's Unicode `\w` on the ranges occurring here:
ASCII alphanumerics, underscore and the Cyrillic block `А`–`я`, `Ё`, `ё`. -/
def isWordChar (c : Char) : Bool :=
  c.isAlphanum || c = '_' || ('А' ≤ c && c ≤ 'я') || c = 'Ё' || c = 'ё'

/-- Split a character list into the maximal runs of word characters
(accumulator holds the current run, reversed). -/
def wordRunsAux : List Char → List Char → List (List Char)
  | acc, [] => if acc.isEmpty then [] else [acc.reverse]
  | acc, c :: cs =>
    if isWordChar c then wordRunsAux (c :: acc) cs
    else if acc.isEmpty then wordRunsAux [] cs
    else acc.reverse :: wordRunsAux [] cs

/-- The maximal word-character runs of a string. -/
def wordRuns (l : List Char) : List (List Char) :=
  wordRunsAux [] l

/-- The token list `CountVectorizer`'s default analyzer produces for one
document: lowercase, then every maximal word-character run of length ≥ 2
(the default `token_pattern` is `(?u)\b\w\w+\b`). -/
def cvTokens (s : String) : List String :=
  ((wordRuns (pyLower s).data).filter (fun r => 2 ≤ r.length)).map String.mk

/-- Lexicographic comparison of character lists (code-point order), the
order Python sorts strings by. -/
def charListLe : List Char → List Char → Bool
  | [], _ => true
  | _ :: _, [] => false
  | a :: as, b :: bs =>
    if a < b then true
    else if b < a then false
    else charListLe as bs

/-- Python string comparison `a <= b`. -/
def strLe (a b : String) : Bool :=
  charListLe a.data b.data

/-- The vocabulary `CountVectorizer` builds over the two documents: the
set of tokens of either, sorted. -/
def cvVocabulary (t1 t2 : List String) : List String :=
  ((t1 ++ t2).dedup).insertionSort (fun a b => strLe a b = true)

/-- Sum of squares of a vector (the square of its Euclidean norm). -/
def sumSq (v : List ℝ) : ℝ :=
  (v.map (fun x => x * x)).sum

/-- `sklearn.preprocessing.normalize` on one row: divide by the Euclidean
norm, except that a zero norm is replaced by 1 (so the row is unchanged). -/
noncomputable def sklNormalize (v : List ℝ) : List ℝ :=
  let n := Real.sqrt (sumSq v)
  if n = 0 then v else v.map (· / n)

/-- Dot product of two vectors. -/
def dotR (a b : List ℝ) : ℝ :=
  (List.zipWith (· * ·) a b).sum

/-- One off-diagonal entry of `sklearn`'s `cosine_similarity`: the dot
product of the two normalised rows. -/
noncomputable def cosineSimilarity (a b : List ℝ) : ℝ :=
  dotR (sklNormalize a) (sklNormalize b)

namespace MetricEvaluator

/-- `MetricEvaluator.lexical_cosine_similarity`: term-count vectors of the
two strings over their joint vocabulary, then cosine similarity.
An input pair with no tokens at all makes `CountVectorizer` raise
`ValueError` (empty vocabulary). -/
noncomputable def lexical_cosine_similarity (str1 str2 : String) : Except PyErr ℝ :=
  let t1 := cvTokens str1
  let t2 := cvTokens str2
  let vocab := cvVocabulary t1 t2
  if vocab.isEmpty then .error .valueError
  else
    .ok (cosineSimilarity
      (vocab.map (fun w => (t1.count w : ℝ)))
      (vocab.map (fun w => (t2.count w : ℝ))))

/-- `MetricEvaluator.semantic_cosine_similarity`: cosine similarity of the
two embedding vectors returned by the injected embedding capability. -/
noncomputable def semantic_cosine_similarity (embed : String → List ℝ)
    (str1 str2 : String) : ℝ :=
  cosineSimilarity (embed str1) (embed str2)

/-- `MetricEvaluator.evaluate`: `0.5 * lexical + 0.5 * semantic`.  The
lexical component is computed first, so its `ValueError` propagates. -/
noncomputable def evaluate (embed : String → List ℝ) (str1 str2 : String) :
    Except PyErr ℝ :=
  match lexical_cosine_similarity str1 str2 with
  | .error e => .error e
  | .ok lexical_score =>
      .ok (0.5 * lexical_score + 0.5 * semantic_cosine_similarity embed str1 str2)

end MetricEvaluator

/-! ## Retriever (`app/services/Retriever.py`)

The FAISS backend is an external collaborator; per the spec (§1, §4.2, §6)
it is an opaque nearest-neighbour store.  Modelled from the spec: the
in-memory index is the list of its documents; `from_documents` indexes
exactly the given documents; merging is a union with no de-duplication;
a query ranks the indexed documents by the store's similarity metric — the
ranking is an opaque parameter `rank` — and returns the first `k`.
Persistence (`save`/`load` paths) is outside the model. -/

/-- `self.retriever`, the queryable view produced by
`vectorstore.as_retriever(search_kwargs={'k': …})`: its mutable
`search_kwargs['k']` and the documents of the store it queries. -/
structure RetrView where
  k : Nat
  docs : List Document
  deriving DecidableEq, Repr

/-- The mutable state of one `Retriever` instance:
`k_search` (the configured default result count), `vectorstore`
(`None` until a load/build/set succeeds) and `retriever`
(`None` until `setup`/`set` builds the view). -/
structure RetrieverState where
  k_search : Nat
  vectorstore : Option (List Document)
  view : Option RetrView
  deriving DecidableEq, Repr

namespace Retriever

/-- `Retriever.setup`: `self.retriever = self.vectorstore.as_retriever(
search_kwargs={'k': self.k_search})`.  With no vectorstore this is an
attribute access on `None`, an `AttributeError`. -/
def setup (st : RetrieverState) : Except PyErr RetrieverState :=
  match st.vectorstore with
  | none => .error .attributeError
  | some docs => .ok { st with view := some ⟨st.k_search, docs⟩ }

/-- `Retriever.set`: index the new documents (`from_documents`); if a
vectorstore exists merge the new index into it (union of documents, no
de-duplication), otherwise the new index becomes the store; persist; rebuild
the queryable view with the original `k_search`. -/
def set (st : RetrieverState) (documents : List Document) : RetrieverState :=
  let store' := match st.vectorstore with
    | some old => old ++ documents
    | none => documents
  { st with vectorstore := some store', view := some ⟨st.k_search, store'⟩ }

/-- `Retriever.get`: if `k` is truthy (a non-`None`, non-zero int) mutate
`self.retriever.search_kwargs['k']` to `k`, then invoke the view.  When the
view is `None` (setup never ran) the attribute access raises
`AttributeError`.  Returns the retrieved documents and the state after the
call. -/
def get (rank : String → List Document → List Document)
    (st : RetrieverState) (question : String) (k : Option Nat) :
    Except PyErr (List Document × RetrieverState) :=
  match st.view with
  | none => .error .attributeError
  | some v =>
      let v' := match k with
        | some kk => if kk = 0 then v else { v with k := kk }
        | none => v
      .ok ((rank question v'.docs).take v'.k, { st with view := some v' })

end Retriever

/-! ## QAService (`app/services/QAService.py`) -/

/-- The state of a `QAService`: the two `Retriever` instances and the
relevance threshold.  The injected collaborators (embedding capability,
generation capability, prompt templates, store ranking) are passed to the
operations as parameters. -/
structure QAServiceState where
  cache : RetrieverState
  retriever : RetrieverState
  threshold : ℝ

namespace QAService

/-- `QAService.detect_intent`: lower-case the generation capability's reply
to the intent prompt; `False` if it starts with the affirmative token
`'да'`, else `True` (`True` means retrieval is needed).
`llmInvoke` maps a prompt to the reply's `content`; `promptIntent` renders
the external `intent` template with the question. -/
def detect_intent (llmInvoke : String → String) (promptIntent : String → String)
    (que : String) : Bool :=
  let intent := pyLower (llmInvoke (promptIntent que))
  if pyStartsWith intent "да" then false else true

/-- `QAService.filter_based_on_metric`: keep, in order, the documents whose
`MetricEvaluator.evaluate` score against the question strictly exceeds the
threshold.  A score failure (the evaluator's `ValueError`) propagates from
the first offending document. -/
noncomputable def filter_based_on_metric (embed : String → List ℝ)
    (threshold : ℝ) (question : String) :
    List Document → Except PyErr (List Document)
  | [] => .ok []
  | document :: rest =>
    match MetricEvaluator.evaluate embed question document.page_content with
    | .error e => .error e
    | .ok score =>
      match filter_based_on_metric embed threshold question rest with
      | .error e => .error e
      | .ok result =>
          .ok (if score > threshold then document :: result else result)

/-- `QAService.get_cached_answer`: query the cache adapter; if candidates
came back, filter them by the metric and return `None` when the filter
leaves nothing; otherwise return each surviving candidate's
`metadata.get('answer')` (over the original empty list when the query
returned nothing).  `none` models Python `None`; `some l` models a list. -/
noncomputable def get_cached_answer (embed : String → List ℝ)
    (rank : String → List Document → List Document)
    (svc : QAServiceState) (question : String) (k : Option Nat) :
    Except PyErr (Option (List (Option MetaVal)) × QAServiceState) :=
  match Retriever.get rank svc.cache question k with
  | .error e => .error e
  | .ok (documents, cache') =>
    let svc' := { svc with cache := cache' }
    if documents.isEmpty then
      .ok (some (documents.map (fun d => d.metadata.lookup "answer")), svc')
    else
      match filter_based_on_metric embed svc.threshold question documents with
      | .error e => .error e
      | .ok filtered =>
        if filtered.isEmpty then .ok (none, svc')
        else .ok (some (filtered.map (fun d => d.metadata.lookup "answer")), svc')

/-- The role of a chat message passed to the generation capability. -/
inductive Role where
  | system
  | user
  deriving DecidableEq, Repr

/-- A chat message (`SystemMessage` / `HumanMessage`). -/
structure Message where
  role : Role
  content : String
  deriving DecidableEq, Repr

/-- The context-assembly phase of `QAService.get_llm_answer`:
`context = ''`; if `detect_intent` says retrieval is needed, fetch the
corpus documents (adapter default `k`, no per-call override) and join their
contents with a double newline.  The returned `Bool` records whether the
corpus adapter's `get` was invoked. -/
def assembleContext (llmInvoke : String → String)
    (promptIntent : String → String)
    (rank : String → List Document → List Document)
    (retr : RetrieverState) (question : String) :
    Except PyErr (String × Bool × RetrieverState) :=
  if detect_intent llmInvoke promptIntent question then
    match Retriever.get rank retr question none with
    | .error e => .error e
    | .ok (documents, retr') =>
        .ok (String.intercalate "\n\n" (documents.map (·.page_content)), true, retr')
  else
    .ok ("", false, retr)

/-- Accumulate the chunks emitted by the generation capability's streaming
interface: `result += response.content or ''` (a `None` chunk contributes
the empty string). -/
def accumulateStream (chunks : List (Option String)) : String :=
  String.join (chunks.map (fun c => c.getD ""))

/-- `QAService.get_llm_answer`: assemble the context, build the system and
user messages from the external templates, accumulate the stream and strip
the characters of `'Ответ:'` from both ends of the result.  The `Bool` in
the result records whether the corpus adapter was queried. -/
def get_llm_answer (llmInvoke : String → String)
    (promptIntent promptSystem promptUser : String → String)
    (llmStream : List Message → List (Option String))
    (rank : String → List Document → List Document)
    (svc : QAServiceState) (question : String) :
    Except PyErr (String × Bool × QAServiceState) :=
  match assembleContext llmInvoke promptIntent rank svc.retriever question with
  | .error e => .error e
  | .ok (context, corpusQueried, retr') =>
    let messages : List Message :=
      [⟨.system, promptSystem context⟩, ⟨.user, promptUser question⟩]
    let result := accumulateStream (llmStream messages)
    .ok (pyStripChars "Ответ:" result, corpusQueried, { svc with retriever := retr' })

/-- `QAService.set_cache`: one cache document per question/answer pair
(content = question, metadata = `{'answer': answer}`), submitted as one
batch to the cache adapter's `set`. -/
def set_cache (svc : QAServiceState) (qa_pairs : List (String × String)) :
    QAServiceState :=
  let documents := qa_pairs.map (fun p =>
    Document.mk p.1 [("answer", MetaVal.str p.2)])
  { svc with cache := Retriever.set svc.cache documents }

end QAService

/-! ## Reader (`app/services/Reader.py`)

`extract_metadata` searches the text for the compiled pattern

  ` Metadata\s*link: (https?://[^\s]+)\s*date: (\d{2}-\d{4})`

The pattern is fixed, so it is embedded as a specialised backtracking
matcher: literal pieces, greedy `\s*` and `[^\s]+` with backtracking, and
the fixed-length date group of exactly two digits, a hyphen and four
digits.  `re.search` returns the leftmost match. -/

/-- First `some` produced by `f` over the list (backtracking: first
successful alternative wins). -/
def firstSome {α β : Type} (f : α → Option β) : List α → Option β
  | [] => none
  | a :: rest =>
    match f a with
    | some b => some b
    | none => firstSome f rest

/-- The date group `(\d{2}-\d{4})`: exactly two digits, `-`, four digits.
Returns the captured seven characters. -/
def rexDate (cs : List Char) : Option String :=
  match cs with
  | a :: b :: h :: c :: d :: e :: f :: _ =>
    if a.isDigit && b.isDigit && h = '-' &&
        c.isDigit && d.isDigit && e.isDigit && f.isDigit then
      some (String.mk [a, b, h, c, d, e, f])
    else none
  | _ => none

/-- `date: ` followed by the date group.  Returns the characters consumed
from here to the end of the match, and the captured date string. -/
def rexDateField (cs : List Char) : Option (Nat × String) :=
  match cs with
  | 'd' :: 'a' :: 't' :: 'e' :: ':' :: ' ' :: rest =>
    (rexDate rest).map (fun d => (6 + 7, d))
  | _ => none

/-- `\s*` before `date: `: greedy, longest whitespace run first, then
backtrack one character at a time. -/
def rexWsDate (cs : List Char) : Option (Nat × String) :=
  let n := (cs.takeWhile isPySpace).length
  firstSome (fun j =>
      let i := n - j
      (rexDateField (cs.drop i)).map (fun p => (i + p.1, p.2)))
    (List.range (n + 1))

/-- `[^\s]+` (the tail of the link group): greedy, longest non-whitespace
run first, backtracking, at least one character.  Returns the length the
`+` consumed, the length the rest of the pattern consumed, and the date. -/
def rexLinkTail (cs : List Char) : Option (Nat × Nat × String) :=
  let n := (cs.takeWhile (fun c => !isPySpace c)).length
  firstSome (fun j =>
      let i := n - j
      if i = 0 then none
      else (rexWsDate (cs.drop i)).map (fun p => (i, p.1, p.2)))
    (List.range n)

/-- `https?://` then the link tail.  The branch with `s` and the branch
without are mutually exclusive on the next character, so no further
backtracking is needed.  Returns (length of the link group, length of the
rest of the match, date). -/
def rexScheme (cs : List Char) : Option (Nat × Nat × String) :=
  match cs with
  | 's' :: ':' :: '/' :: '/' :: rest =>
    (rexLinkTail rest).map (fun p => (4 + p.1, p.2.1, p.2.2))
  | ':' :: '/' :: '/' :: rest =>
    (rexLinkTail rest).map (fun p => (3 + p.1, p.2.1, p.2.2))
  | _ => none

/-- The link group `(https?://[^\s]+)` and everything after it.  Returns
(characters consumed from here to the end of the match, link, date). -/
def rexLink (cs : List Char) : Option (Nat × String × String) :=
  match cs with
  | 'h' :: 't' :: 't' :: 'p' :: rest =>
    (rexScheme rest).map (fun p =>
      (4 + p.1 + p.2.1, String.mk (cs.take (4 + p.1)), p.2.2))
  | _ => none

/-- `link: ` followed by the link group. -/
def rexLinkField (cs : List Char) : Option (Nat × String × String) :=
  match cs with
  | 'l' :: 'i' :: 'n' :: 'k' :: ':' :: ' ' :: rest =>
    (rexLink rest).map (fun p => (6 + p.1, p.2))
  | _ => none

/-- `\s*` between ` Metadata` and `link: `: greedy with backtracking. -/
def rexWsLink (cs : List Char) : Option (Nat × String × String) :=
  let n := (cs.takeWhile isPySpace).length
  firstSome (fun j =>
      let i := n - j
      (rexLinkField (cs.drop i)).map (fun p => (i + p.1, p.2)))
    (List.range (n + 1))

/-- Try to match the whole pattern at the start of `cs`.  Returns (length
of group 0, link, date). -/
def rexMatchAt (cs : List Char) : Option (Nat × String × String) :=
  match cs with
  | ' ' :: 'M' :: 'e' :: 't' :: 'a' :: 'd' :: 'a' :: 't' :: 'a' :: rest =>
    (rexWsLink rest).map (fun p => (9 + p.1, p.2))
  | _ => none

/-- `re.search`: leftmost match.  Returns (start index, length of group 0,
link, date). -/
def rexSearchAux : List Char → Nat → Option (Nat × Nat × String × String)
  | cs, idx =>
    match rexMatchAt cs with
    | some (m, l, d) => some (idx, m, l, d)
    | none =>
      match cs with
      | [] => none
      | _ :: rest => rexSearchAux rest (idx + 1)

/-- Search a string for the metadata pattern. -/
def rexSearch (s : String) : Option (Nat × Nat × String × String) :=
  rexSearchAux s.data 0

/-! ### `datetime.strptime(date_str, '%d-%m-%Y')`

Python's `_strptime` compiles the format to a regex
`(?P<d>3[01]|[12]\d|0[1-9]|[1-9])-(?P<m>1[0-2]|0[1-9]|[1-9])-(?P<Y>\d\d\d\d)`
that must consume the whole string, then validates the day against the
month (and the year against `MINYEAR`).  The alternation candidates are
tried in order with backtracking. -/

/-- Numeric value of a digit character. -/
def digitVal (c : Char) : Nat := c.toNat - 48

/-- The day alternatives `3[01] | [12]\d | 0[1-9] | [1-9]`, in regex
order, as (value, rest) candidates. -/
def dayCands : List Char → List (Nat × List Char)
  | a :: b :: rest =>
    (if a = '3' && (b = '0' || b = '1') then [(30 + digitVal b, rest)] else []) ++
    (if (a = '1' || a = '2') && b.isDigit then
        [(digitVal a * 10 + digitVal b, rest)] else []) ++
    (if a = '0' && ('1' ≤ b && b ≤ '9') then [(digitVal b, rest)] else []) ++
    (if '1' ≤ a && a ≤ '9' then [(digitVal a, b :: rest)] else [])
  | [a] => if '1' ≤ a && a ≤ '9' then [(digitVal a, [])] else []
  | [] => []

/-- The month alternatives `1[0-2] | 0[1-9] | [1-9]`, in regex order. -/
def monthCands : List Char → List (Nat × List Char)
  | a :: b :: rest =>
    (if a = '1' && ('0' ≤ b && b ≤ '2') then [(10 + digitVal b, rest)] else []) ++
    (if a = '0' && ('1' ≤ b && b ≤ '9') then [(digitVal b, rest)] else []) ++
    (if '1' ≤ a && a ≤ '9' then [(digitVal a, b :: rest)] else [])
  | [a] => if '1' ≤ a && a ≤ '9' then [(digitVal a, [])] else []
  | [] => []

/-- Gregorian leap year. -/
def isLeapYear (y : Nat) : Bool :=
  (y % 4 = 0 && y % 100 ≠ 0) || y % 400 = 0

/-- Days in a month of a year. -/
def daysInMonth (y m : Nat) : Nat :=
  if m = 2 then (if isLeapYear y then 29 else 28)
  else if m = 4 || m = 6 || m = 9 || m = 11 then 30
  else 31

/-- `datetime.strptime(s, '%d-%m-%Y')`: `none` models the `ValueError`. -/
def strptimeDMY (s : String) : Option PyDate :=
  firstSome (fun dc =>
      match dc.2 with
      | '-' :: afterDay =>
        firstSome (fun mc =>
            match mc.2 with
            | '-' :: y1 :: y2 :: y3 :: y4 :: rest =>
              if y1.isDigit && y2.isDigit && y3.isDigit && y4.isDigit &&
                  rest.isEmpty then
                let y := digitVal y1 * 1000 + digitVal y2 * 100 +
                  digitVal y3 * 10 + digitVal y4
                if 1 ≤ y && dc.1 ≤ daysInMonth y mc.1 then
                  some (PyDate.mk y mc.1 dc.1)
                else none
              else none
            | _ => none)
          (monthCands afterDay)
      | _ => none)
    (dayCands s.data)

namespace Reader

/-- `Reader.extract_metadata`: search the text for the metadata pattern.
On a match, remove every occurrence of the matched block from the text and
strip the result; the metadata dict holds the stripped link and the
`strptime`-parsed date, with `None` when the date string fails to parse.
With no match, return the text unchanged with an empty dict. -/
def extract_metadata (text : String) : String × List (String × MetaVal) :=
  match rexSearch text with
  | some (idx, len, link, date_str) =>
    let metadata_text := String.mk ((text.data.drop idx).take len)
    let clean_text := pyStrip (pyReplace text metadata_text "")
    let link := pyStrip link
    let date := strptimeDMY (pyStrip date_str)
    let metadata : List (String × MetaVal) :=
      [("link", MetaVal.str link),
       ("date", match date with
        | some d => MetaVal.date d
        | none => MetaVal.null)]
    (clean_text, metadata)
  | none => (text, [])

end Reader

/-! ## Shared concrete collaborators for the witnesses -/

/-- A trivial embedding capability: every text embeds to the vector `[1]`. -/
noncomputable def embedOne : String → List ℝ := fun _ => [1]

/-- A trivial store ranking: the documents in index order. -/
def rankId : String → List Document → List Document := fun _ ds => ds

/-! ## C2 -/

/-- C2: the claim says `extract_metadata` on a block with date `15-03-2024`
returns the cleaned text, the link and the parsed date `2024-03-15`, and a
null date for an unparseable date string.  The code's date group
`(\d{2}-\d{4})` cannot match a three-part date, so the block is not
recognised at all and the text comes back unchanged with empty metadata
(first conjunct).  A two-part date the pattern does accept is then fed to
`strptime('%d-%m-%Y')`, which requires three parts, so the stored date is
always null (second conjunct).  The `'%d-%m-%Y'` parser itself accepts the
claim's `15-03-2024` as 2024-03-15 (third conjunct), which is what the code
would produce had the date group been `(\d{2}-\d{2}-\d{4})`. -/
theorem C2_metadata_block_behavior :
    Reader.extract_metadata
        "Some passage. Metadata\nlink: https://x.test/a\ndate: 15-03-2024" =
      ("Some passage. Metadata\nlink: https://x.test/a\ndate: 15-03-2024", []) ∧
    Reader.extract_metadata
        "Some passage. Metadata\nlink: https://x.test/a\ndate: 03-2024" =
      ("Some passage.",
        [("link", MetaVal.str "https://x.test/a"), ("date", MetaVal.null)]) ∧
    strptimeDMY "15-03-2024" = some (PyDate.mk 2024 3 15) := by
  refine ⟨?_, ?_, ?_⟩ <;> rfl

/-! ## C9 -/

/-- C9: `Retriever.get` with a truthy `k` overwrites the view's
`search_kwargs['k']` permanently: the call itself returns the top `k`
documents and leaves the view's `k` set to `k`, a subsequent call without
an explicit `k` still returns `k` documents (not the configured `k_search`)
and leaves that state in place, and `k = 0` is falsy so it does not
override — the previous setting stays and the call uses it. -/
theorem C9_get_k_override (rank : String → List Document → List Document)
    (st : RetrieverState) (q q2 : String) (kk : Nat) (v : RetrView)
    (hv : st.view = some v) (hk : v.k = st.k_search) (hkk : kk ≠ 0) :
    Retriever.get rank st q (some kk) =
      .ok ((rank q v.docs).take kk, { st with view := some { v with k := kk } }) ∧
    Retriever.get rank { st with view := some { v with k := kk } } q2 none =
      .ok ((rank q2 v.docs).take kk, { st with view := some { v with k := kk } }) ∧
    Retriever.get rank st q (some 0) =
      .ok ((rank q v.docs).take st.k_search, st) := by
  obtain ⟨ks, vs, vw⟩ := st
  obtain rfl : vw = some v := hv
  refine ⟨?_, ?_, ?_⟩
  · simp [Retriever.get, hkk]
  · simp [Retriever.get]
  · simp at hk
    simp [Retriever.get, hk]

/-- Concrete instance of `C9_get_k_override`: a three-document store with
default `k_search = 2`; `get (some 1)` narrows the view to one result,
the following `get none` still returns one result, and `get (some 0)`
returns the default two. -/
theorem C9_witness :
    Retriever.get rankId
        ⟨2, some [Document.mk "a" [], Document.mk "b" [], Document.mk "c" []],
         some ⟨2, [Document.mk "a" [], Document.mk "b" [], Document.mk "c" []]⟩⟩
        "x" (some 1) =
      .ok ([Document.mk "a" []],
        ⟨2, some [Document.mk "a" [], Document.mk "b" [], Document.mk "c" []],
         some ⟨1, [Document.mk "a" [], Document.mk "b" [], Document.mk "c" []]⟩⟩) ∧
    Retriever.get rankId
        ⟨2, some [Document.mk "a" [], Document.mk "b" [], Document.mk "c" []],
         some ⟨1, [Document.mk "a" [], Document.mk "b" [], Document.mk "c" []]⟩⟩
        "y" none =
      .ok ([Document.mk "a" []],
        ⟨2, some [Document.mk "a" [], Document.mk "b" [], Document.mk "c" []],
         some ⟨1, [Document.mk "a" [], Document.mk "b" [], Document.mk "c" []]⟩⟩) ∧
    Retriever.get rankId
        ⟨2, some [Document.mk "a" [], Document.mk "b" [], Document.mk "c" []],
         some ⟨2, [Document.mk "a" [], Document.mk "b" [], Document.mk "c" []]⟩⟩
        "x" (some 0) =
      .ok ([Document.mk "a" [], Document.mk "b" []],
        ⟨2, some [Document.mk "a" [], Document.mk "b" [], Document.mk "c" []],
         some ⟨2, [Document.mk "a" [], Document.mk "b" [], Document.mk "c" []]⟩⟩) := by
  have h := C9_get_k_override rankId
    ⟨2, some [Document.mk "a" [], Document.mk "b" [], Document.mk "c" []],
     some ⟨2, [Document.mk "a" [], Document.mk "b" [], Document.mk "c" []]⟩⟩
    "x" "y" 1 ⟨2, [Document.mk "a" [], Document.mk "b" [], Document.mk "c" []]⟩
    rfl rfl (by decide)
  exact ⟨h.1, h.2.1, h.2.2⟩

/-! ## C3 -/

/-- C3 counterexample: with an empty cache store — `load()` found nothing,
so `__init__` skipped `cache.setup()` and the queryable view is `None` —
`get_cached_answer` does not return a "no match" value: the attribute
access on the `None` view raises an `AttributeError`, here at the concrete
question `"any question"` with the default `k`. -/
theorem C3_counterexample :
    QAService.get_cached_answer embedOne rankId
        ⟨⟨5, none, none⟩, ⟨5, none, none⟩, (1 : ℝ) / 2⟩ "any question" none =
      .error .attributeError := by
  simp [QAService.get_cached_answer, Retriever.get]

/-- C3 (amended): when the cache store is empty the cache adapter's view
was never set up, and `get_cached_answer` raises an `AttributeError` for
every question and every `k` argument (the HTTP boundary, not this method,
converts the exception into a negative result). -/
theorem C3_empty_cache_raises (embed : String → List ℝ)
    (rank : String → List Document → List Document)
    (svc : QAServiceState) (q : String) (k : Option Nat)
    (h : svc.cache.view = none) :
    QAService.get_cached_answer embed rank svc q k = .error .attributeError := by
  simp [QAService.get_cached_answer, Retriever.get, h]

/-- Concrete instance of `C3_empty_cache_raises`. -/
theorem C3_witness :
    QAService.get_cached_answer embedOne rankId
        ⟨⟨5, none, none⟩, ⟨5, none, none⟩, (0 : ℝ)⟩ "почему небо голубое" (some 3) =
      .error .attributeError :=
  C3_empty_cache_raises embedOne rankId _ _ _ rfl

/-! ## C4 -/

/-- C4: the generation capability's intent reply, lower-cased, counts as
"no retrieval needed" iff it starts with `'да'` (first conjunct); the empty
reply means retrieval is needed (second conjunct); and the context
assembly of `get_llm_answer` returns the empty context without invoking the
corpus adapter's `get` in the affirmative case — the adapter state is
passed through untouched and the corpus-queried flag is `false` — while in
the other case it fetches the corpus documents and joins their contents
with a double-newline separator (third conjunct). -/
theorem C4_intent_rule_and_context (llmInvoke : String → String)
    (promptIntent : String → String)
    (rank : String → List Document → List Document)
    (retr : RetrieverState) (question : String) :
    (QAService.detect_intent llmInvoke promptIntent question = false ↔
      pyStartsWith (pyLower (llmInvoke (promptIntent question))) "да" = true) ∧
    QAService.detect_intent (fun _ => "") promptIntent question = true ∧
    QAService.assembleContext llmInvoke promptIntent rank retr question =
      (if pyStartsWith (pyLower (llmInvoke (promptIntent question))) "да" then
        .ok ("", false, retr)
      else
        (Retriever.get rank retr question none).map
          (fun p => (String.intercalate "\n\n" (p.1.map (·.page_content)),
            true, p.2))) := by
  refine ⟨?_, ?_, ?_⟩
  · by_cases h : pyStartsWith (pyLower (llmInvoke (promptIntent question))) "да" <;>
      simp [QAService.detect_intent, h]
  · rfl
  · by_cases h : pyStartsWith (pyLower (llmInvoke (promptIntent question))) "да"
    · simp [QAService.assembleContext, QAService.detect_intent, h]
    · cases hE : Retriever.get rank retr question none with
      | error e =>
        simp [QAService.assembleContext, QAService.detect_intent, h, hE, Except.map]
      | ok p =>
        simp [QAService.assembleContext, QAService.detect_intent, h, hE, Except.map]

/-! ## C6 -/

/-- C6: whatever string the streaming interface's chunks accumulate to,
`get_llm_answer` returns it with every leading and trailing character of
the character set of `'Ответ:'` (a Python character-set strip, not a
substring strip) removed.  The last conjunct shows the over-trimming on the
answer `"Ответ: привет"`: besides the label, the trailing `т`, `е`, `в` of
the answer word itself are stripped, leaving `" при"`. -/
theorem C6_label_charset_strip (llmInvoke : String → String)
    (promptIntent promptSystem promptUser : String → String)
    (llmStream : List QAService.Message → List (Option String))
    (rank : String → List Document → List Document)
    (svc : QAServiceState) (question ctx : String) (b : Bool)
    (retr' : RetrieverState)
    (h : QAService.assembleContext llmInvoke promptIntent rank svc.retriever
      question = .ok (ctx, b, retr')) :
    QAService.get_llm_answer llmInvoke promptIntent promptSystem promptUser
        llmStream rank svc question =
      .ok (pyStripChars "Ответ:"
          (QAService.accumulateStream (llmStream
            [⟨.system, promptSystem ctx⟩, ⟨.user, promptUser question⟩])),
        b, { svc with retriever := retr' }) ∧
    pyStripChars "Ответ:" "Ответ: привет" = " при" := by
  refine ⟨?_, by rfl⟩
  simp [QAService.get_llm_answer, h]

/-- Concrete instance of `C6_label_charset_strip`: an affirmative intent
reply (no retrieval), a stream whose chunks accumulate to
`"Ответ: привет"` (with a `None` chunk contributing nothing), and the
returned answer `" при"`. -/
theorem C6_witness :
    QAService.get_llm_answer (fun _ => "Да") (fun q => q) (fun c => c)
        (fun q => q) (fun _ => [some "Ответ: при", none, some "вет"]) rankId
        ⟨⟨5, none, none⟩, ⟨5, none, none⟩, (0 : ℝ)⟩ "вопрос" =
      .ok (" при", false, ⟨⟨5, none, none⟩, ⟨5, none, none⟩, (0 : ℝ)⟩) := by
  have h := C6_label_charset_strip (fun _ => "Да") (fun q => q) (fun c => c)
    (fun q => q) (fun _ => [some "Ответ: при", none, some "вет"]) rankId
    ⟨⟨5, none, none⟩, ⟨5, none, none⟩, (0 : ℝ)⟩ "вопрос" "" false
    ⟨5, none, none⟩ rfl
  exact h.1

/-! ## Helper lemmas: concrete and zero-vector cosine values -/

/-- Cosine similarity of the one-dimensional unit vector with itself. -/
lemma cosineSimilarity_one_one : cosineSimilarity [(1 : ℝ)] [(1 : ℝ)] = 1 := by
  norm_num [cosineSimilarity, sklNormalize, sumSq, dotR, Real.sqrt_one]

/-- Cosine similarity of the two orthogonal unit vectors of the plane. -/
lemma cosineSimilarity_orth : cosineSimilarity [(1 : ℝ), 0] [0, 1] = 0 := by
  norm_num [cosineSimilarity, sklNormalize, sumSq, dotR, Real.sqrt_one]

/-- The sum of squares of an all-zero vector vanishes. -/
lemma sumSq_map_zero {α : Type} (l : List α) :
    sumSq (l.map fun _ => (0 : ℝ)) = 0 := by
  induction l with
  | nil => simp [sumSq]
  | cons a as ih =>
    simp only [sumSq, List.map_cons, List.map_map, List.sum_cons] at ih ⊢
    simp [ih]

/-- Normalising an all-zero vector leaves it unchanged (`sklearn`
substitutes norm 1 for the zero norm). -/
lemma sklNormalize_map_zero {α : Type} (l : List α) :
    sklNormalize (l.map fun _ => (0 : ℝ)) = l.map fun _ => (0 : ℝ) := by
  simp [sklNormalize, sumSq_map_zero, Real.sqrt_zero]

/-- A dot product with an all-zero vector on the left vanishes. -/
lemma dotR_map_zero_left {α : Type} (l : List α) (w : List ℝ) :
    dotR (l.map fun _ => (0 : ℝ)) w = 0 := by
  induction l generalizing w with
  | nil => simp [dotR]
  | cons a as ih =>
    cases w with
    | nil => simp [dotR]
    | cons b bs => simpa [dotR] using ih bs

/-- A dot product with an all-zero vector on the right vanishes. -/
lemma dotR_map_zero_right {α : Type} (v : List ℝ) (l : List α) :
    dotR v (l.map fun _ => (0 : ℝ)) = 0 := by
  induction v generalizing l with
  | nil => simp [dotR]
  | cons b bs ih =>
    cases l with
    | nil => simp [dotR]
    | cons a as => simpa [dotR] using ih as

/-- Cosine similarity with an all-zero vector on the left is 0. -/
lemma cosineSimilarity_map_zero_left {α : Type} (l : List α) (w : List ℝ) :
    cosineSimilarity (l.map fun _ => (0 : ℝ)) w = 0 := by
  rw [cosineSimilarity, sklNormalize_map_zero, dotR_map_zero_left]

/-- Cosine similarity with an all-zero vector on the right is 0. -/
lemma cosineSimilarity_map_zero_right {α : Type} (v : List ℝ) (l : List α) :
    cosineSimilarity v (l.map fun _ => (0 : ℝ)) = 0 := by
  rw [cosineSimilarity, sklNormalize_map_zero, dotR_map_zero_right]

/-- Concrete lexical score: identical one-token strings score 1. -/
lemma lexical_hi_hi :
    MetricEvaluator.lexical_cosine_similarity "hi" "hi" = .ok 1 := by
  have h1 : cvTokens "hi" = ["hi"] := rfl
  have h2 : cvVocabulary ["hi"] ["hi"] = ["hi"] := rfl
  have c1 : (["hi"] : List String).count "hi" = 1 := rfl
  simp only [MetricEvaluator.lexical_cosine_similarity, h1, h2, List.map_cons,
    List.map_nil, c1, Nat.cast_one, List.isEmpty_cons]
  norm_num [cosineSimilarity_one_one]

/-- Concrete lexical score: disjoint one-token strings score 0. -/
lemma lexical_hi_zz :
    MetricEvaluator.lexical_cosine_similarity "hi" "zz" = .ok 0 := by
  have h1 : cvTokens "hi" = ["hi"] := rfl
  have h2 : cvTokens "zz" = ["zz"] := rfl
  have h3 : cvVocabulary ["hi"] ["zz"] = ["hi", "zz"] := rfl
  have c1 : (["hi"] : List String).count "zz" = 0 := rfl
  have c2 : (["zz"] : List String).count "hi" = 0 := rfl
  have c3 : (["hi"] : List String).count "hi" = 1 := rfl
  have c4 : (["zz"] : List String).count "zz" = 1 := rfl
  simp only [MetricEvaluator.lexical_cosine_similarity, h1, h2, h3, List.map_cons,
    List.map_nil, c1, c2, c3, c4, Nat.cast_one, Nat.cast_zero, List.isEmpty_cons]
  norm_num [cosineSimilarity_orth]

/-- Concrete combined score of `"hi"` against itself under `embedOne`. -/
lemma evaluate_hi_hi : MetricEvaluator.evaluate embedOne "hi" "hi" = .ok 1 := by
  simp only [MetricEvaluator.evaluate, lexical_hi_hi,
    MetricEvaluator.semantic_cosine_similarity, embedOne, cosineSimilarity_one_one]
  norm_num

/-- Concrete combined score of `"hi"` against `"zz"` under `embedOne`. -/
lemma evaluate_hi_zz :
    MetricEvaluator.evaluate embedOne "hi" "zz" = .ok (1 / 2) := by
  simp only [MetricEvaluator.evaluate, lexical_hi_zz,
    MetricEvaluator.semantic_cosine_similarity, embedOne, cosineSimilarity_one_one]
  norm_num

/-! ## Filtering: characterisation and concrete instances -/

/-- Characterisation of a successful `filter_based_on_metric` run: the kept
documents form a subsequence of the input, every kept document scored
strictly above the threshold, and every input document that scored strictly
above the threshold is kept. -/
lemma filter_based_on_metric_spec (embed : String → List ℝ) (t : ℝ)
    (q : String) : ∀ docs kept : List Document,
    QAService.filter_based_on_metric embed t q docs = .ok kept →
    kept.Sublist docs ∧
    (∀ d ∈ kept, ∃ s, MetricEvaluator.evaluate embed q d.page_content = .ok s ∧
      s > t) ∧
    (∀ d ∈ docs, ∀ s, MetricEvaluator.evaluate embed q d.page_content = .ok s →
      s > t → d ∈ kept) := by
  intro docs
  induction docs with
  | nil =>
    intro kept h
    simp only [QAService.filter_based_on_metric] at h
    injection h with h
    subst h
    exact ⟨List.nil_sublist _, by simp, by simp⟩
  | cons d ds ih =>
    intro kept h
    simp only [QAService.filter_based_on_metric] at h
    cases hE : MetricEvaluator.evaluate embed q d.page_content with
    | error e => rw [hE] at h; simp at h
    | ok s =>
      rw [hE] at h
      cases hF : QAService.filter_based_on_metric embed t q ds with
      | error e => rw [hF] at h; simp at h
      | ok rest =>
        rw [hF] at h
        simp only at h
        injection h with h
        subst h
        obtain ⟨hsub, hmem, hcomp⟩ := ih rest hF
        by_cases hst : s > t
        · rw [if_pos hst]
          refine ⟨hsub.cons₂ d, ?_, ?_⟩
          · intro x hx
            rcases List.mem_cons.mp hx with rfl | hx
            · exact ⟨s, hE, hst⟩
            · exact hmem x hx
          · intro x hxds s2 hs2 hgt
            rcases List.mem_cons.mp hxds with rfl | hxds
            · exact List.mem_cons_self _ _
            · exact List.mem_cons_of_mem _ (hcomp x hxds s2 hs2 hgt)
        · rw [if_neg hst]
          refine ⟨hsub.cons d, hmem, ?_⟩
          intro x hxds s2 hs2 hgt
          rcases List.mem_cons.mp hxds with rfl | hxds
          · rw [hE] at hs2
            injection hs2 with hs2
            subst hs2
            exact absurd hgt hst
          · exact hcomp x hxds s2 hs2 hgt

/-- A cache document whose content scores 1 against the question `"hi"`. -/
def DHi : Document := ⟨"hi", [("answer", MetaVal.str "A")]⟩

/-- A cache document whose content scores 1/2 against the question
`"hi"`. -/
def DZz : Document := ⟨"zz", [("answer", MetaVal.str "Z")]⟩

/-- Concrete filtering run: with threshold 3/4, `DHi` (score 1) is kept and
`DZz` (score 1/2) is dropped. -/
lemma filter_hi_zz :
    QAService.filter_based_on_metric embedOne ((3 : ℝ) / 4) "hi" [DHi, DZz] =
      .ok [DHi] := by
  have e1 : MetricEvaluator.evaluate embedOne "hi" DHi.page_content = .ok 1 :=
    evaluate_hi_hi
  have e2 : MetricEvaluator.evaluate embedOne "hi" DZz.page_content =
      .ok (1 / 2) := evaluate_hi_zz
  simp only [QAService.filter_based_on_metric, e1, e2]
  rw [if_neg (by norm_num : ¬((1 : ℝ) / 2 > 3 / 4)),
    if_pos (by norm_num : (1 : ℝ) > 3 / 4)]

/-- Concrete filtering run where everything is dropped. -/
lemma filter_zz_empty :
    QAService.filter_based_on_metric embedOne ((3 : ℝ) / 4) "hi" [DZz] =
      .ok [] := by
  have e2 : MetricEvaluator.evaluate embedOne "hi" DZz.page_content =
      .ok (1 / 2) := evaluate_hi_zz
  simp only [QAService.filter_based_on_metric, e2]
  rw [if_neg (by norm_num : ¬((1 : ℝ) / 2 > 3 / 4))]

/-! ## C8 -/

/-- C8: a successful `filter_based_on_metric` run only selects: the result
is a subsequence of the input list (same `Document` values — contents and
metadata unmodified — in the input order), and in particular every returned
document is an element of the input. -/
theorem C8_filter_selects_subsequence (embed : String → List ℝ) (t : ℝ)
    (q : String) (docs kept : List Document)
    (h : QAService.filter_based_on_metric embed t q docs = .ok kept) :
    kept.Sublist docs ∧ ∀ d ∈ kept, d ∈ docs := by
  have hs := (filter_based_on_metric_spec embed t q docs kept h).1
  exact ⟨hs, fun d hd => hs.mem hd⟩

/-- Concrete instance of `C8_filter_selects_subsequence`. -/
theorem C8_witness :
    QAService.filter_based_on_metric embedOne ((3 : ℝ) / 4) "hi" [DHi, DZz] =
      .ok [DHi] ∧
    List.Sublist [DHi] [DHi, DZz] ∧ DHi ∈ [DHi, DZz] := by
  have h := C8_filter_selects_subsequence embedOne ((3 : ℝ) / 4) "hi"
    [DHi, DZz] [DHi] filter_hi_zz
  exact ⟨filter_hi_zz, h.1, h.2 DHi (List.mem_cons_self _ _)⟩

/-! ## C10 -/

/-- C10: the two "no match" outcomes of `get_cached_answer` are different
values.  When the cache query returns no documents the method returns the
empty list (the comprehension over the empty candidate list); when
candidates were retrieved but the threshold filter removed every one it
returns `None`; and `Some []` is not `None`. -/
theorem C10_two_no_match_values (embed : String → List ℝ)
    (rank : String → List Document → List Document)
    (svc : QAServiceState) (q : String) (k : Option Nat) :
    (∀ st2, Retriever.get rank svc.cache q k = .ok ([], st2) →
      QAService.get_cached_answer embed rank svc q k =
        .ok (some [], { svc with cache := st2 })) ∧
    (∀ docs st2, Retriever.get rank svc.cache q k = .ok (docs, st2) →
      docs ≠ [] →
      QAService.filter_based_on_metric embed svc.threshold q docs = .ok [] →
      QAService.get_cached_answer embed rank svc q k =
        .ok (none, { svc with cache := st2 })) ∧
    (some ([] : List (Option MetaVal)) ≠ (none : Option (List (Option MetaVal)))) := by
  refine ⟨?_, ?_, by simp⟩
  · intro st2 hget
    simp [QAService.get_cached_answer, hget]
  · intro docs st2 hget hne hfil
    simp [QAService.get_cached_answer, hget, hfil, List.isEmpty_iff, hne]

/-- A service whose cache store exists but holds no documents. -/
noncomputable def svcA : QAServiceState :=
  ⟨⟨5, some [], some ⟨5, []⟩⟩, ⟨5, none, none⟩, (3 : ℝ) / 4⟩

/-- A service whose cache holds one document that scores below the
threshold 3/4 against the question `"hi"`. -/
noncomputable def svcB : QAServiceState :=
  ⟨⟨5, some [DZz], some ⟨5, [DZz]⟩⟩, ⟨5, none, none⟩, (3 : ℝ) / 4⟩

/-- Concrete instance of `C10_two_no_match_values`: the empty query returns
`Some []`, the all-filtered-out query returns `None`. -/
theorem C10_witness :
    QAService.get_cached_answer embedOne rankId svcA "hi" none =
      .ok (some [], svcA) ∧
    QAService.get_cached_answer embedOne rankId svcB "hi" none =
      .ok (none, svcB) := by
  constructor
  · exact (C10_two_no_match_values embedOne rankId svcA "hi" none).1
      svcA.cache rfl
  · exact (C10_two_no_match_values embedOne rankId svcB "hi" none).2.1
      [DZz] svcB.cache rfl (by simp) filter_zz_empty

/-! ## C5 -/

/-- C5 counterexample: the claim's general form says `evaluate` does not
raise whenever one of the strings has zero extractable tokens; but when
BOTH strings have zero tokens (here the concrete pair `("", "")`), the
vectorizer's vocabulary is empty and `evaluate` raises `ValueError`. -/
theorem C5_counterexample :
    MetricEvaluator.evaluate embedOne "" "" = .error .valueError := rfl

/-- C5 (amended): `evaluate` on a pair where exactly one string has zero
extractable tokens (the other has at least one) does not raise; the
lexical component is 0 — the zero count vector's cosine — and the combined
score is `0.5 * 0 + 0.5 * semantic`.  When both strings have zero tokens
the vectorizer raises `ValueError` instead (see the counterexample). -/
theorem C5_zero_token_side (embed : String → List ℝ) (s1 s2 : String)
    (h : cvTokens s1 = [] ∨ cvTokens s2 = [])
    (hne : ¬(cvTokens s1 = [] ∧ cvTokens s2 = [])) :
    MetricEvaluator.lexical_cosine_similarity s1 s2 = .ok 0 ∧
    MetricEvaluator.evaluate embed s1 s2 =
      .ok (0.5 * 0 + 0.5 * MetricEvaluator.semantic_cosine_similarity embed s1 s2) := by
  have hvoc : ∀ t1 t2 : List String, t1 ++ t2 ≠ [] →
      (cvVocabulary t1 t2).isEmpty = false := by
    intro t1 t2 hne12
    have hlen : (cvVocabulary t1 t2).length = ((t1 ++ t2).dedup).length :=
      List.length_insertionSort _ _
    have hd : (t1 ++ t2).dedup ≠ [] := fun hnil =>
      hne12 ((List.dedup_eq_nil _).mp hnil)
    have : cvVocabulary t1 t2 ≠ [] := by
      intro hnil
      rw [hnil] at hlen
      exact hd (List.eq_nil_of_length_eq_zero hlen.symm)
    simpa [List.isEmpty_iff] using this
  have hlex : MetricEvaluator.lexical_cosine_similarity s1 s2 = .ok 0 := by
    rcases h with h1 | h2
    · have h2ne : cvTokens s2 ≠ [] := fun hx => hne ⟨h1, hx⟩
      have hv := hvoc [] (cvTokens s2) (by simp [h2ne])
      simp only [MetricEvaluator.lexical_cosine_similarity, h1, hv,
        Bool.false_eq_true, if_false, List.count_nil, Nat.cast_zero,
        cosineSimilarity_map_zero_left]
    · have h1ne : cvTokens s1 ≠ [] := fun hx => hne ⟨hx, h2⟩
      have hv := hvoc (cvTokens s1) [] (by simp [h1ne])
      simp only [MetricEvaluator.lexical_cosine_similarity, h2, hv,
        Bool.false_eq_true, if_false, List.count_nil, Nat.cast_zero,
        cosineSimilarity_map_zero_right]
  refine ⟨hlex, ?_⟩
  simp only [MetricEvaluator.evaluate, hlex]

/-- Concrete instance of `C5_zero_token_side`: `evaluate("", "anything")`
yields a defined score whose lexical component is 0. -/
theorem C5_witness :
    MetricEvaluator.lexical_cosine_similarity "" "anything" = .ok 0 ∧
    MetricEvaluator.evaluate embedOne "" "anything" =
      .ok (0.5 * 0 +
        0.5 * MetricEvaluator.semantic_cosine_similarity embedOne "" "anything") :=
  C5_zero_token_side embedOne "" "anything" (Or.inl rfl) (by decide)

/-! ## C1 -/

/-- C1: whatever list of candidate documents the cache adapter returns,
a `get_cached_answer` call that returns a list returns exactly the
`answer` metadata of the candidates whose combined similarity score
strictly exceeds the threshold, in the filtered (original) order: the
returned list is the image of the filter's output, the filter's output is
a subsequence of the candidates (no re-ranking), every kept candidate
scored strictly above the threshold, and every candidate scoring strictly
above the threshold was kept. -/
theorem C1_strict_threshold_filter (embed : String → List ℝ)
    (rank : String → List Document → List Document)
    (svc : QAServiceState) (q : String) (k : Option Nat)
    (docs : List Document) (st2 : RetrieverState)
    (l : List (Option MetaVal)) (svc2 : QAServiceState)
    (hget : Retriever.get rank svc.cache q k = .ok (docs, st2))
    (hans : QAService.get_cached_answer embed rank svc q k = .ok (some l, svc2)) :
    ∃ kept : List Document,
      QAService.filter_based_on_metric embed svc.threshold q docs = .ok kept ∧
      l = kept.map (fun d => d.metadata.lookup "answer") ∧
      kept.Sublist docs ∧
      (∀ d ∈ kept, ∃ s, MetricEvaluator.evaluate embed q d.page_content = .ok s ∧
        s > svc.threshold) ∧
      (∀ d ∈ docs, ∀ s, MetricEvaluator.evaluate embed q d.page_content = .ok s →
        s > svc.threshold → d ∈ kept) := by
  by_cases hd : docs = []
  · subst hd
    have hrun : QAService.get_cached_answer embed rank svc q k =
        .ok (some [], { svc with cache := st2 }) := by
      simp [QAService.get_cached_answer, hget]
    rw [hrun] at hans
    simp only [Except.ok.injEq, Prod.mk.injEq, Option.some.injEq] at hans
    obtain ⟨hl, -⟩ := hans
    exact ⟨[], rfl, hl.symm, List.nil_sublist _, by simp, by simp⟩
  · cases hF : QAService.filter_based_on_metric embed svc.threshold q docs with
    | error e =>
      have hrun : QAService.get_cached_answer embed rank svc q k = .error e := by
        simp [QAService.get_cached_answer, hget, hF, List.isEmpty_iff, hd]
      rw [hrun] at hans
      exact absurd hans (by simp)
    | ok filtered =>
      by_cases hfe : filtered = []
      · subst hfe
        have hrun : QAService.get_cached_answer embed rank svc q k =
            .ok (none, { svc with cache := st2 }) := by
          simp [QAService.get_cached_answer, hget, hF, List.isEmpty_iff, hd]
        rw [hrun] at hans
        simp at hans
      · have hrun : QAService.get_cached_answer embed rank svc q k =
            .ok (some (filtered.map fun d => d.metadata.lookup "answer"),
              { svc with cache := st2 }) := by
          simp [QAService.get_cached_answer, hget, hF, List.isEmpty_iff, hd, hfe]
        rw [hrun] at hans
        simp only [Except.ok.injEq, Prod.mk.injEq, Option.some.injEq] at hans
        obtain ⟨hl, -⟩ := hans
        obtain ⟨hsub, hmem, hcomp⟩ :=
          filter_based_on_metric_spec embed svc.threshold q docs filtered hF
        exact ⟨filtered, rfl, hl.symm, hsub, hmem, hcomp⟩

/-- A service whose cache holds `DHi` (score 1) and `DZz` (score 1/2),
with threshold 3/4. -/
noncomputable def svcC : QAServiceState :=
  ⟨⟨5, some [DHi, DZz], some ⟨5, [DHi, DZz]⟩⟩, ⟨5, none, none⟩, (3 : ℝ) / 4⟩

/-- Concrete `get_cached_answer` run on `svcC`: only `DHi` survives the
threshold and its `answer` metadata is returned. -/
lemma gca_svcC :
    QAService.get_cached_answer embedOne rankId svcC "hi" none =
      .ok (some [some (MetaVal.str "A")], svcC) := by
  have hget : Retriever.get rankId svcC.cache "hi" none =
      .ok ([DHi, DZz], svcC.cache) := rfl
  have hfil : QAService.filter_based_on_metric embedOne svcC.threshold "hi"
      [DHi, DZz] = .ok [DHi] := filter_hi_zz
  simp only [QAService.get_cached_answer, hget]
  simp only [hfil]
  simp [DHi, List.lookup, svcC]

/-- Concrete instance of `C1_strict_threshold_filter` on `svcC`. -/
theorem C1_witness :
    ∃ kept : List Document,
      QAService.filter_based_on_metric embedOne svcC.threshold "hi"
          [DHi, DZz] = .ok kept ∧
      [some (MetaVal.str "A")] =
        kept.map (fun d => d.metadata.lookup "answer") ∧
      kept.Sublist [DHi, DZz] ∧
      (∀ d ∈ kept, ∃ s,
        MetricEvaluator.evaluate embedOne "hi" d.page_content = .ok s ∧
        s > svcC.threshold) ∧
      (∀ d ∈ [DHi, DZz], ∀ s,
        MetricEvaluator.evaluate embedOne "hi" d.page_content = .ok s →
        s > svcC.threshold → d ∈ kept) :=
  C1_strict_threshold_filter embedOne rankId svcC "hi" none [DHi, DZz]
    svcC.cache [some (MetaVal.str "A")] svcC rfl gca_svcC

/-! ## C7 -/

/-- A list that is a permutation of a two-element constant list is that
list. -/
lemma perm_pair_eq {α : Type} (d : α) (l : List α) (h : l.Perm [d, d]) :
    l = [d, d] := by
  have hlen : l.length = 2 := by simpa using h.length_eq
  have hmem : ∀ x ∈ l, x = d := by
    intro x hx
    have := h.mem_iff.mp hx
    simpa using this
  cases l with
  | nil => simp at hlen
  | cons x xs =>
    cases xs with
    | nil => simp at hlen
    | cons y ys =>
      cases ys with
      | nil =>
        rw [hmem x (by simp), hmem y (by simp)]
      | cons z zs => simp at hlen

/-- C7: starting from an empty cache store, submitting the same
question/answer pair through `set_cache` twice retains the duplicate — the
adapter's `set` merges the new index into the existing one as a union with
no de-duplication — and a subsequent `get_cached_answer` for that question
succeeds and returns the answer twice.  The hypotheses are the scenario's
environment: the store ranks without losing documents (a permutation), the
default result count admits both copies, and the question's self-similarity
score clears the threshold. -/
theorem C7_duplicate_cache_retrievable (embed : String → List ℝ)
    (rank : String → List Document → List Document)
    (svc : QAServiceState) (q a : String) (s : ℝ)
    (hempty : svc.cache.vectorstore = none)
    (hk : 2 ≤ svc.cache.k_search)
    (hrank : ∀ q2 ds, (rank q2 ds).Perm ds)
    (hscore : MetricEvaluator.evaluate embed q q = .ok s)
    (hthr : s > svc.threshold) :
    QAService.get_cached_answer embed rank
        (QAService.set_cache (QAService.set_cache svc [(q, a)]) [(q, a)])
        q none =
      .ok (some [some (MetaVal.str a), some (MetaVal.str a)],
        QAService.set_cache (QAService.set_cache svc [(q, a)]) [(q, a)]) := by
  obtain ⟨⟨ks, vs, vw⟩, retr, thr⟩ := svc
  simp only at hempty hk hthr
  subst hempty
  have hsvc2 : QAService.set_cache
      (QAService.set_cache ⟨⟨ks, none, vw⟩, retr, thr⟩ [(q, a)]) [(q, a)] =
      ⟨⟨ks,
        some [⟨q, [("answer", MetaVal.str a)]⟩, ⟨q, [("answer", MetaVal.str a)]⟩],
        some ⟨ks,
          [⟨q, [("answer", MetaVal.str a)]⟩, ⟨q, [("answer", MetaVal.str a)]⟩]⟩⟩,
        retr, thr⟩ := by
    simp [QAService.set_cache, Retriever.set]
  rw [hsvc2]
  have hr : rank q [⟨q, [("answer", MetaVal.str a)]⟩,
      ⟨q, [("answer", MetaVal.str a)]⟩] =
      [⟨q, [("answer", MetaVal.str a)]⟩, ⟨q, [("answer", MetaVal.str a)]⟩] :=
    perm_pair_eq _ _ (hrank q _)
  have hget : Retriever.get rank
      ⟨ks,
        some [⟨q, [("answer", MetaVal.str a)]⟩, ⟨q, [("answer", MetaVal.str a)]⟩],
        some ⟨ks,
          [⟨q, [("answer", MetaVal.str a)]⟩, ⟨q, [("answer", MetaVal.str a)]⟩]⟩⟩
      q none =
      .ok ([⟨q, [("answer", MetaVal.str a)]⟩, ⟨q, [("answer", MetaVal.str a)]⟩],
        ⟨ks,
          some [⟨q, [("answer", MetaVal.str a)]⟩, ⟨q, [("answer", MetaVal.str a)]⟩],
          some ⟨ks,
            [⟨q, [("answer", MetaVal.str a)]⟩,
              ⟨q, [("answer", MetaVal.str a)]⟩]⟩⟩) := by
    simp only [Retriever.get, hr]
    rw [List.take_of_length_le (by simpa using hk)]
  have hfil : QAService.filter_based_on_metric embed thr q
      [⟨q, [("answer", MetaVal.str a)]⟩, ⟨q, [("answer", MetaVal.str a)]⟩] =
      .ok [⟨q, [("answer", MetaVal.str a)]⟩, ⟨q, [("answer", MetaVal.str a)]⟩] := by
    simp only [QAService.filter_based_on_metric, hscore]
    rw [if_pos hthr, if_pos hthr]
  simp only [QAService.get_cached_answer, hget]
  simp only [hfil]
  simp [List.lookup]

/-- A fresh service with empty stores and threshold 3/4, the starting
state for the `C7` scenario. -/
noncomputable def svc0 : QAServiceState :=
  ⟨⟨5, none, none⟩, ⟨5, none, none⟩, (3 : ℝ) / 4⟩

/-- Concrete instance of `C7_duplicate_cache_retrievable`: caching
`("hi", "ok")` twice and asking `"hi"` returns `"ok"` twice. -/
theorem C7_witness :
    QAService.get_cached_answer embedOne rankId
        (QAService.set_cache (QAService.set_cache svc0 [("hi", "ok")])
          [("hi", "ok")]) "hi" none =
      .ok (some [some (MetaVal.str "ok"), some (MetaVal.str "ok")],
        QAService.set_cache (QAService.set_cache svc0 [("hi", "ok")])
          [("hi", "ok")]) :=
  C7_duplicate_cache_retrievable embedOne rankId svc0 "hi" "ok" 1 rfl
    (by norm_num [svc0]) (fun _ _ => List.Perm.refl _) evaluate_hi_hi
    (by norm_num [svc0])
